import Mathlib

/-!
Verification of the agricultural-equipment-store backend (Go) against its
natural-language specification.  The Go code is shallowly embedded: Mongo
documents become Lean structures, the document store becomes an explicit
state (`DB`) threaded through each operation, Go `float64` money values are
modelled as exact rationals `ℚ`, Go `int` as `Int`, `time.Time` instants and
Mongo ObjectIDs as abstract `Nat` ticks / identifiers.  Fallible repository
writes are modelled by injected fault flags (a `true` flag makes the
corresponding write return an error, as a failing Mongo call would).
-/

set_option autoImplicit false

namespace AgriStore

/-- Mongo ObjectIDs, modelled as abstract numeric identities. -/
abbrev ObjectId := Nat

/-- `domain.ProductImage` (part_010): an image attached to a product. -/
structure ProductImage where
  id : String
  url : String
  filename : String
  filePath : String
  fileSize : Int
  mimeType : String
  isURL : Bool
  isPrimary : Bool
  createdAt : Nat
deriving DecidableEq

/-- `domain.Product` (part_010). -/
structure Product where
  id : ObjectId
  name : String
  description : String
  price : ℚ
  category : String
  brand : String
  imageURL : String
  images : List ProductImage
  stock : Int
  isActive : Bool
  createdAt : Nat
  updatedAt : Nat
deriving DecidableEq

/-- `domain.Sale` (part_008). -/
structure Sale where
  id : ObjectId
  productID : ObjectId
  quantity : Int
  price : ℚ
  total : ℚ
  dateSold : Nat
  createdAt : Nat
  updatedAt : Nat
deriving DecidableEq

/-- `domain.CreateSaleRequest` (part_008).  At the HTTP boundary the binding
tags require `Quantity > 0` and `Price > 0`; the structure itself carries the
raw fields. -/
structure CreateSaleRequest where
  productID : ObjectId
  quantity : Int
  price : ℚ
deriving DecidableEq

/-- The document store visible to the sales/inventory use cases: the
`products` and `sales` collections. -/
structure DB where
  products : List Product
  sales : List Sale
deriving DecidableEq

/-- `productRepository.GetByID`: `FindOne` on `_id`; a missing document is
returned as `nil, nil` in Go, i.e. `none` here. -/
def getProductByID (db : DB) (id : ObjectId) : Option Product :=
  db.products.find? (fun p => p.id == id)

/-- `productRepository.UpdateStock`: `UpdateOne` on `_id` setting `stock` and
`updated_at`. -/
def updateStockRepo (db : DB) (id : ObjectId) (stock : Int) (now : Nat) : DB :=
  { db with products :=
      db.products.map (fun p => if p.id == id then { p with stock := stock, updatedAt := now } else p) }

/-- `productRepository.Update`: `UpdateOne` on `_id` replacing the document
fields with the given product (and refreshing `updated_at`). -/
def updateProductRepo (db : DB) (product : Product) (now : Nat) : DB :=
  { db with products :=
      db.products.map (fun p => if p.id == product.id then { product with updatedAt := now } else p) }

/-- `saleRepository.Create`: assigns a fresh ObjectID and record timestamps,
then inserts the document. -/
def createSaleRepo (db : DB) (sale : Sale) (newId : ObjectId) (now : Nat) : Sale × DB :=
  let stored := { sale with id := newId, createdAt := now, updatedAt := now }
  (stored, { db with sales := db.sales ++ [stored] })

/-- `SaleUseCase.CreateSale` (internal/usecase/inventory_usecase.go, lines
68-108).  Looks the product up, rejects on missing product or insufficient
stock, computes `total := req.Price * float64(req.Quantity)`, inserts the
sale (price = caller-supplied request price), then writes the decremented
stock back via `UpdateStock`.  `createFails`/`updateFails` inject repository
write errors; the pair returned is (Go return value, resulting store). -/
def SaleUseCase.CreateSale (db : DB) (req : CreateSaleRequest) (now : Nat)
    (newSaleId : ObjectId) (createFails updateFails : Bool) :
    Except String Sale × DB :=
  match getProductByID db req.productID with
  | none => (.error "product not found", db)
  | some product =>
    if product.stock < req.quantity then
      (.error "insufficient stock", db)
    else
      let total := req.price * (req.quantity : ℚ)
      let sale : Sale :=
        { id := 0, productID := req.productID, quantity := req.quantity,
          price := req.price, total := total, dateSold := now,
          createdAt := 0, updatedAt := 0 }
      if createFails then (.error "sale insert failed", db)
      else
        let (stored, db1) := createSaleRepo db sale newSaleId now
        if updateFails then (.error "stock update failed", db1)
        else
          let newStock := product.stock - req.quantity
          (.ok stored, updateStockRepo db1 req.productID newStock now)

/-- `SalesUseCase.CreateSale` (internal/usecase/sales_usecase.go, lines
27-69).  Same lookup and stock check, but the total and the persisted price
come from the catalog product (`product.Price`), and the stock write-back
goes through `productRepo.Update` on the mutated product. -/
def SalesUseCase.CreateSale (db : DB) (req : CreateSaleRequest) (now : Nat)
    (newSaleId : ObjectId) (createFails updateFails : Bool) :
    Except String Sale × DB :=
  match getProductByID db req.productID with
  | none => (.error "product not found", db)
  | some product =>
    if product.stock < req.quantity then
      (.error "insufficient stock", db)
    else
      let total := product.price * (req.quantity : ℚ)
      let sale : Sale :=
        { id := 0, productID := req.productID, quantity := req.quantity,
          price := product.price, total := total, dateSold := now,
          createdAt := 0, updatedAt := 0 }
      if createFails then (.error "sale insert failed", db)
      else
        let (stored, db1) := createSaleRepo db sale newSaleId now
        if updateFails then (.error "stock update failed", db1)
        else
          let product1 := { product with stock := product.stock - req.quantity }
          (.ok stored, updateProductRepo db1 product1 now)

/-- Stock updates with a non-negative value preserve non-negativity of every
stored stock. -/
theorem stock_nonneg_updateStockRepo (db : DB) (id : ObjectId) (s : Int) (now : Nat)
    (h : ∀ p ∈ db.products, 0 ≤ p.stock) (hs : 0 ≤ s) :
    ∀ p ∈ (updateStockRepo db id s now).products, 0 ≤ p.stock := by
  intro p hp
  simp only [updateStockRepo, List.mem_map] at hp
  obtain ⟨q, hq, rfl⟩ := hp
  cases hid : q.id == id with
  | true => simpa [hid] using hs
  | false => simpa [hid] using h q hq

/-- Replacing a document by a product with non-negative stock preserves
non-negativity of every stored stock. -/
theorem stock_nonneg_updateProductRepo (db : DB) (prod : Product) (now : Nat)
    (h : ∀ p ∈ db.products, 0 ≤ p.stock) (hs : 0 ≤ prod.stock) :
    ∀ p ∈ (updateProductRepo db prod now).products, 0 ≤ p.stock := by
  intro p hp
  simp only [updateProductRepo, List.mem_map] at hp
  obtain ⟨q, hq, rfl⟩ := hp
  cases hid : q.id == prod.id with
  | true => simpa [hid] using hs
  | false => simpa [hid] using h q hq

/-- Claim C1: for every product `p` and every CreateSale request with quantity
`q`, if `q > p.stock` then CreateSale (in both implementations) fails with the
insufficient-stock error leaving the store unchanged, and consequently stock
never becomes negative through a validated CreateSale. -/
theorem claim_C1_insufficient_stock_rejected
    (db : DB) (req : CreateSaleRequest) (now newSaleId : Nat)
    (createFails updateFails : Bool) :
    (∀ product, getProductByID db req.productID = some product →
      product.stock < req.quantity →
      SaleUseCase.CreateSale db req now newSaleId createFails updateFails
          = (.error "insufficient stock", db) ∧
      SalesUseCase.CreateSale db req now newSaleId createFails updateFails
          = (.error "insufficient stock", db)) ∧
    ((∀ p ∈ db.products, 0 ≤ p.stock) →
      (∀ p ∈ (SaleUseCase.CreateSale db req now newSaleId createFails updateFails).2.products,
          0 ≤ p.stock) ∧
      (∀ p ∈ (SalesUseCase.CreateSale db req now newSaleId createFails updateFails).2.products,
          0 ≤ p.stock)) := by
  constructor
  · intro product hfind hlt
    constructor
    · simp [SaleUseCase.CreateSale, hfind, hlt]
    · simp [SalesUseCase.CreateSale, hfind, hlt]
  · intro hnn
    constructor
    · unfold SaleUseCase.CreateSale
      cases hfind : getProductByID db req.productID with
      | none => simpa using hnn
      | some product =>
        simp only
        split
        · simpa using hnn
        · next hge =>
          cases createFails with
          | true => simpa using hnn
          | false =>
            cases updateFails with
            | true => simpa [createSaleRepo] using hnn
            | false =>
              simp only [Bool.false_eq_true, if_false]
              apply stock_nonneg_updateStockRepo
              · simpa [createSaleRepo] using hnn
              · omega
    · unfold SalesUseCase.CreateSale
      cases hfind : getProductByID db req.productID with
      | none => simpa using hnn
      | some product =>
        simp only
        split
        · simpa using hnn
        · next hge =>
          cases createFails with
          | true => simpa using hnn
          | false =>
            cases updateFails with
            | true => simpa [createSaleRepo] using hnn
            | false =>
              simp only [Bool.false_eq_true, if_false]
              apply stock_nonneg_updateProductRepo
              · simpa [createSaleRepo] using hnn
              · simp only
                omega

/-- A concrete product used to instantiate the theorems: id 1, price 10,
stock 5. -/
def sampleProduct : Product :=
  { id := 1, name := "tractor", description := "", price := 10,
    category := "equipment", brand := "", imageURL := "", images := [],
    stock := 5, isActive := true, createdAt := 0, updatedAt := 0 }

/-- A concrete store holding only `sampleProduct`. -/
def sampleDB : DB := { products := [sampleProduct], sales := [] }

/-- Witness for C1: a request for 6 units against stock 5 is rejected by both
implementations and the store is untouched. -/
theorem claim_C1_witness :
    SaleUseCase.CreateSale sampleDB ⟨1, 6, 10⟩ 0 7 false false
        = (.error "insufficient stock", sampleDB) ∧
    SalesUseCase.CreateSale sampleDB ⟨1, 6, 10⟩ 0 7 false false
        = (.error "insufficient stock", sampleDB) := by
  have h := claim_C1_insufficient_stock_rejected sampleDB ⟨1, 6, 10⟩ 0 7 false false
  exact h.1 sampleProduct rfl (by decide)

/-- Looking a product up after `UpdateStock` on the same id returns the old
document with the new stock and refreshed `updated_at`. -/
theorem find?_map_updateStock (l : List Product) (id : ObjectId) (s : Int) (now : Nat) :
    (l.map (fun p => if p.id == id then { p with stock := s, updatedAt := now } else p)).find?
        (fun p => p.id == id)
      = (l.find? (fun p => p.id == id)).map (fun p => { p with stock := s, updatedAt := now }) := by
  induction l with
  | nil => rfl
  | cons q t ih =>
    cases hq : q.id == id with
    | true => simp [List.find?, hq]
    | false => simpa [List.find?, hq] using ih

/-- Looking a product up after the repository `Update` on a product with the
same id returns that product with refreshed `updated_at`. -/
theorem find?_map_updateProduct (l : List Product) (prod : Product) (now : Nat) :
    (l.map (fun p => if p.id == prod.id then { prod with updatedAt := now } else p)).find?
        (fun p => p.id == prod.id)
      = (l.find? (fun p => p.id == prod.id)).map (fun _ => { prod with updatedAt := now }) := by
  induction l with
  | nil => rfl
  | cons q t ih =>
    cases hq : q.id == prod.id with
    | true => simp [List.find?, hq]
    | false => simpa [List.find?, hq] using ih

theorem getProductByID_updateStockRepo (db : DB) (id : ObjectId) (s : Int) (now : Nat) :
    getProductByID (updateStockRepo db id s now) id
      = (getProductByID db id).map (fun p => { p with stock := s, updatedAt := now }) := by
  simpa [getProductByID, updateStockRepo] using find?_map_updateStock db.products id s now

theorem getProductByID_updateProductRepo (db : DB) (prod : Product) (now : Nat) :
    getProductByID (updateProductRepo db prod now) prod.id
      = (getProductByID db prod.id).map (fun _ => { prod with updatedAt := now }) := by
  simpa [getProductByID, updateProductRepo] using find?_map_updateProduct db.products prod now

/-- Variant of `getProductByID_updateProductRepo` for a lookup id known to
equal the updated product's id. -/
theorem getProductByID_updateProductRepo_of_id (db : DB) (prod : Product) (id : ObjectId)
    (now : Nat) (h : prod.id = id) :
    getProductByID (updateProductRepo db prod now) id
      = (getProductByID db id).map (fun _ => { prod with updatedAt := now }) := by
  subst h
  exact getProductByID_updateProductRepo db prod now

/-- Counterexample for C2 as frozen: `SalesUseCase.CreateSale` at product
price 10, request price 3, quantity 1, succeeds but persists total 10, which
is not `q * p = 3` for the caller-supplied `p`. -/
theorem claim_C2_counterexample :
    ((SalesUseCase.CreateSale sampleDB ⟨1, 1, 3⟩ 0 7 false false).1.toOption.map Sale.total)
        = some 10 ∧
    (10 : ℚ) ≠ 1 * 3 := by
  constructor
  · simp only [SalesUseCase.CreateSale, sampleDB, sampleProduct, getProductByID,
      createSaleRepo, List.find?]
    norm_num
    exact ⟨_, rfl, rfl⟩
  · norm_num

/-- Claim C2 (amended): after a successful CreateSale both implementations
leave the product's stock at `s - q` and append exactly one sale; the
persisted total is `q` times the sale's recorded price, which is the
caller-supplied request price in `SaleUseCase.CreateSale` but the catalog
product's price in `SalesUseCase.CreateSale`. -/
theorem claim_C2_successful_sale_effects
    (db : DB) (req : CreateSaleRequest) (now newSaleId : Nat) (product : Product)
    (hfind : getProductByID db req.productID = some product)
    (hstock : req.quantity ≤ product.stock) :
    (∃ sale,
      (SaleUseCase.CreateSale db req now newSaleId false false).1 = .ok sale ∧
      sale.price = req.price ∧ sale.total = req.price * (req.quantity : ℚ) ∧
      (SaleUseCase.CreateSale db req now newSaleId false false).2.sales
          = db.sales ++ [sale] ∧
      (getProductByID (SaleUseCase.CreateSale db req now newSaleId false false).2
          req.productID).map Product.stock
        = some (product.stock - req.quantity)) ∧
    (∃ sale,
      (SalesUseCase.CreateSale db req now newSaleId false false).1 = .ok sale ∧
      sale.price = product.price ∧ sale.total = product.price * (req.quantity : ℚ) ∧
      (SalesUseCase.CreateSale db req now newSaleId false false).2.sales
          = db.sales ++ [sale] ∧
      (getProductByID (SalesUseCase.CreateSale db req now newSaleId false false).2
          req.productID).map Product.stock
        = some (product.stock - req.quantity)) := by
  have hid : product.id = req.productID := by
    have := List.find?_some hfind
    simpa using this
  have hnlt : ¬ product.stock < req.quantity := not_lt.mpr hstock
  constructor
  · simp only [SaleUseCase.CreateSale, hfind, hnlt, if_false, createSaleRepo,
      Bool.false_eq_true]
    refine ⟨_, rfl, rfl, rfl, rfl, ?_⟩
    rw [getProductByID_updateStockRepo]
    have hfind1 : getProductByID
        { db with sales := db.sales ++
          [{ id := newSaleId, productID := req.productID, quantity := req.quantity,
             price := req.price, total := req.price * (req.quantity : ℚ),
             dateSold := now, createdAt := now, updatedAt := now }] }
        req.productID = some product := hfind
    rw [hfind1]
    rfl
  · simp only [SalesUseCase.CreateSale, hfind, hnlt, if_false, createSaleRepo,
      Bool.false_eq_true]
    refine ⟨_, rfl, rfl, rfl, rfl, ?_⟩
    rw [getProductByID_updateProductRepo_of_id _
      ({ product with stock := product.stock - req.quantity }) req.productID now
      (show ({ product with stock := product.stock - req.quantity } : Product).id
          = req.productID from hid)]
    have hfind1 : getProductByID
        { db with sales := db.sales ++
          [{ id := newSaleId, productID := req.productID, quantity := req.quantity,
             price := product.price, total := product.price * (req.quantity : ℚ),
             dateSold := now, createdAt := now, updatedAt := now }] }
        req.productID = some product := hfind
    rw [hfind1]
    rfl

/-- Witness for the amended C2 at product price 10, stock 5, request
quantity 2 and price 3: both implementations leave stock 3; the first records
total 6 (caller price), the second total 20 (catalog price). -/
theorem claim_C2_witness :
    ((SaleUseCase.CreateSale sampleDB ⟨1, 2, 3⟩ 0 7 false false).1.toOption.map Sale.total
        = some 6) ∧
    ((SalesUseCase.CreateSale sampleDB ⟨1, 2, 3⟩ 0 7 false false).1.toOption.map Sale.total
        = some 20) ∧
    ((getProductByID (SaleUseCase.CreateSale sampleDB ⟨1, 2, 3⟩ 0 7 false false).2 1).map
        Product.stock = some 3) ∧
    ((getProductByID (SalesUseCase.CreateSale sampleDB ⟨1, 2, 3⟩ 0 7 false false).2 1).map
        Product.stock = some 3) := by
  obtain ⟨⟨s1, h1, hp1, ht1, hs1, hst1⟩, ⟨s2, h2, hp2, ht2, hs2, hst2⟩⟩ :=
    claim_C2_successful_sale_effects sampleDB ⟨1, 2, 3⟩ 0 7 sampleProduct rfl (by decide)
  refine ⟨?_, ?_, ?_, ?_⟩
  · rw [h1]
    show some _ = some 6
    rw [ht1]
    norm_num
  · rw [h2]
    show some _ = some 20
    rw [ht2]
    norm_num [sampleProduct]
  · have h := hst1
    norm_num [sampleProduct] at h
    obtain ⟨a, ha, hs⟩ := h
    rw [ha]
    simp [hs]
  · have h := hst2
    norm_num [sampleProduct] at h
    obtain ⟨a, ha, hs⟩ := h
    rw [ha]
    simp [hs]

/-- Claim C3: for the same request and product state, `SaleUseCase.CreateSale`
persists the caller-supplied request price while `SalesUseCase.CreateSale`
persists the catalog product's current price, and whenever those two prices
differ the two implementations produce different sale records and different
totals (quantity is positive for every validated request, `binding gt=0`). -/
theorem claim_C3_price_source_divergence
    (db : DB) (req : CreateSaleRequest) (now newSaleId : Nat) (product : Product)
    (hfind : getProductByID db req.productID = some product)
    (hq : 1 ≤ req.quantity)
    (hstock : req.quantity ≤ product.stock)
    (hne : req.price ≠ product.price) :
    ∃ s1 s2,
      (SaleUseCase.CreateSale db req now newSaleId false false).1 = .ok s1 ∧
      (SalesUseCase.CreateSale db req now newSaleId false false).1 = .ok s2 ∧
      s1.price = req.price ∧ s2.price = product.price ∧
      s1 ≠ s2 ∧ s1.total ≠ s2.total := by
  have hnlt : ¬ product.stock < req.quantity := not_lt.mpr hstock
  refine ⟨{ id := newSaleId, productID := req.productID, quantity := req.quantity,
            price := req.price, total := req.price * (req.quantity : ℚ),
            dateSold := now, createdAt := now, updatedAt := now },
          { id := newSaleId, productID := req.productID, quantity := req.quantity,
            price := product.price, total := product.price * (req.quantity : ℚ),
            dateSold := now, createdAt := now, updatedAt := now },
          ?_, ?_, rfl, rfl, ?_, ?_⟩
  · simp [SaleUseCase.CreateSale, hfind, hnlt, createSaleRepo]
  · simp [SalesUseCase.CreateSale, hfind, hnlt, createSaleRepo]
  · intro h
    rw [Sale.mk.injEq] at h
    exact hne h.2.2.2.1
  · have hql : (req.quantity : ℚ) ≠ 0 := by
      exact_mod_cast (by omega : req.quantity ≠ 0)
    intro h
    simp only at h
    exact hne (mul_right_cancel₀ hql h)

/-- Witness for C3: request price 3 against catalog price 10 yields two
different persisted sales with different totals. -/
theorem claim_C3_witness :
    ∃ s1 s2,
      (SaleUseCase.CreateSale sampleDB ⟨1, 2, 3⟩ 0 7 false false).1 = .ok s1 ∧
      (SalesUseCase.CreateSale sampleDB ⟨1, 2, 3⟩ 0 7 false false).1 = .ok s2 ∧
      s1.price = 3 ∧ s2.price = 10 ∧ s1 ≠ s2 ∧ s1.total ≠ s2.total := by
  obtain ⟨s1, s2, h1, h2, hp1, hp2, hdiff, hdifft⟩ :=
    claim_C3_price_source_divergence sampleDB ⟨1, 2, 3⟩ 0 7 sampleProduct rfl
      (by decide) (by decide) (by norm_num [sampleProduct])
  exact ⟨s1, s2, h1, h2, hp1, hp2.trans rfl, hdiff, hdifft⟩

/-- Claim C4: with a failing stock write after a successful sale insert, both
CreateSale implementations return an error while the sale stays persisted and
the product documents (hence the stock) are untouched. -/
theorem claim_C4_no_atomicity
    (db : DB) (req : CreateSaleRequest) (now newSaleId : Nat) (product : Product)
    (hfind : getProductByID db req.productID = some product)
    (hstock : req.quantity ≤ product.stock) :
    SaleUseCase.CreateSale db req now newSaleId false true
      = (.error "stock update failed",
         { db with sales := db.sales ++
           [{ id := newSaleId, productID := req.productID, quantity := req.quantity,
              price := req.price, total := req.price * (req.quantity : ℚ),
              dateSold := now, createdAt := now, updatedAt := now }] }) ∧
    SalesUseCase.CreateSale db req now newSaleId false true
      = (.error "stock update failed",
         { db with sales := db.sales ++
           [{ id := newSaleId, productID := req.productID, quantity := req.quantity,
              price := product.price, total := product.price * (req.quantity : ℚ),
              dateSold := now, createdAt := now, updatedAt := now }] }) := by
  have hnlt : ¬ product.stock < req.quantity := not_lt.mpr hstock
  constructor
  · simp [SaleUseCase.CreateSale, hfind, hnlt, createSaleRepo]
  · simp [SalesUseCase.CreateSale, hfind, hnlt, createSaleRepo]

/-- Witness for C4: at the sample store the failed second write leaves an
error result, the product list unchanged and exactly one appended sale. -/
theorem claim_C4_witness :
    (∃ e, (SaleUseCase.CreateSale sampleDB ⟨1, 2, 3⟩ 0 7 false true).1 = .error e) ∧
    (SaleUseCase.CreateSale sampleDB ⟨1, 2, 3⟩ 0 7 false true).2.products
        = sampleDB.products ∧
    (∃ sale, (SaleUseCase.CreateSale sampleDB ⟨1, 2, 3⟩ 0 7 false true).2.sales
        = sampleDB.sales ++ [sale]) ∧
    (∃ e, (SalesUseCase.CreateSale sampleDB ⟨1, 2, 3⟩ 0 7 false true).1 = .error e) ∧
    (SalesUseCase.CreateSale sampleDB ⟨1, 2, 3⟩ 0 7 false true).2.products
        = sampleDB.products ∧
    (∃ sale, (SalesUseCase.CreateSale sampleDB ⟨1, 2, 3⟩ 0 7 false true).2.sales
        = sampleDB.sales ++ [sale]) := by
  obtain ⟨h1, h2⟩ := claim_C4_no_atomicity sampleDB ⟨1, 2, 3⟩ 0 7 sampleProduct rfl (by decide)
  refine ⟨⟨"stock update failed", ?_⟩, ?_,
    ⟨{ id := 7, productID := 1, quantity := 2, price := 3,
       total := 3 * ((2 : Int) : ℚ), dateSold := 0, createdAt := 0, updatedAt := 0 }, ?_⟩,
    ⟨"stock update failed", ?_⟩, ?_,
    ⟨{ id := 7, productID := 1, quantity := 2, price := 10,
       total := 10 * ((2 : Int) : ℚ), dateSold := 0, createdAt := 0, updatedAt := 0 }, ?_⟩⟩
  · rw [h1]
  · rw [h1]
  · rw [h1]
  · rw [h2]
  · rw [h2]
  · rw [h2]
    rfl

/-- `domain.CreateProductRequest` (part_010). -/
structure CreateProductRequest where
  name : String
  description : String
  price : ℚ
  category : String
  brand : String
  imageURL : String
  imageURLs : List String
  stock : Int
deriving DecidableEq

/-- `domain.UpdateProductRequest` (part_010): a partial update; `isActive` is
a pointer in Go, i.e. an `Option`. -/
structure UpdateProductRequest where
  name : String
  description : String
  price : ℚ
  category : String
  brand : String
  imageURL : String
  imageURLs : List String
  stock : Int
  isActive : Option Bool
deriving DecidableEq

/-- The `domain.ProductImage` literal the product use case builds around a
URL: `uuid.New()` is modelled by a caller-supplied fresh-identity stream. -/
def newURLImage (id url : String) (primary : Bool) (now : Nat) : ProductImage :=
  { id := id, url := url, filename := "", filePath := "", fileSize := 0,
    mimeType := "", isURL := true, isPrimary := primary, createdAt := now }

/-- The loop appending one URL-based image per non-empty URL, marking a new
image primary when the accumulated collection is still empty at append time
(`IsPrimary: len(product.Images) == 0`). -/
def appendURLImages (urls : List String) (freshId : Nat → String) (now : Nat)
    (init : List ProductImage) : List ProductImage :=
  urls.enum.foldl
    (fun imgs iu =>
      if iu.2 ≠ "" then imgs ++ [newURLImage (freshId iu.1) iu.2 (imgs.length == 0) now]
      else imgs)
    init

/-- The `CreateProduct` image loop (part_007 lines 39-51), whose primary flag
is `i == 0` on the request-URL index rather than on the built collection. -/
def urlImagesByIndex (urls : List String) (freshId : Nat → String) (now : Nat) :
    List ProductImage :=
  urls.enum.filterMap
    (fun iu =>
      if iu.2 ≠ "" then some (newURLImage (freshId iu.1) iu.2 (iu.1 == 0) now)
      else none)

/-- The "ensure at least one image is marked as primary" block shared by
`CreateProductWithImages` and `UpdateProductWithImages` (part_007 lines
114-126 and 313-325): when the collection is non-empty and no image is
primary, the first image is flagged. -/
def ensurePrimaryImages (images : List ProductImage) : List ProductImage :=
  if images.length > 0 then
    if images.any (fun img => img.isPrimary) then images
    else
      match images with
      | [] => []
      | first :: rest => { first with isPrimary := true } :: rest
  else images

/-- `ProductUseCase.CreateProduct` (part_007 lines 26-70): the product as
built and handed to `productRepo.Create`. -/
def ProductUseCase.CreateProduct (req : CreateProductRequest)
    (freshId : Nat → String) (now : Nat) : Product :=
  let product : Product :=
    { id := 0, name := req.name, description := req.description,
      price := req.price, category := req.category, brand := req.brand,
      imageURL := req.imageURL, images := [], stock := req.stock,
      isActive := true, createdAt := 0, updatedAt := 0 }
  let product :=
    if req.imageURLs.length > 0 then
      { product with images := product.images ++ urlImagesByIndex req.imageURLs freshId now }
    else product
  if req.imageURL ≠ "" ∧ product.images.length = 0 then
    { product with images :=
        product.images ++ [newURLImage (freshId req.imageURLs.length) req.imageURL true now] }
  else product

/-- `ProductUseCase.CreateProductWithImages` (part_007 lines 73-134). -/
def ProductUseCase.CreateProductWithImages (req : CreateProductRequest)
    (uploadedImages : List ProductImage) (freshId : Nat → String) (now : Nat) :
    Product :=
  let product : Product :=
    { id := 0, name := req.name, description := req.description,
      price := req.price, category := req.category, brand := req.brand,
      imageURL := req.imageURL, images := [], stock := req.stock,
      isActive := true, createdAt := 0, updatedAt := 0 }
  let product := { product with images := product.images ++ uploadedImages }
  let product :=
    if req.imageURLs.length > 0 then
      { product with images := appendURLImages req.imageURLs freshId now product.images }
    else product
  let product :=
    if req.imageURL ≠ "" ∧ product.images.length = 0 then
      { product with images :=
          product.images ++ [newURLImage (freshId req.imageURLs.length) req.imageURL true now] }
    else product
  { product with images := ensurePrimaryImages product.images }

/-- The legacy-URL synchronisation loop of `UpdateProduct` (part_007 lines
178-189): stop at the first URL-based image that already carries the target
URL, or rewrite the URL of the first URL-based primary image; `none` when no
image triggered (`hasLegacyImage` stayed false). -/
def legacySyncLoop (targetURL : String) : List ProductImage → Option (List ProductImage)
  | [] => none
  | img :: rest =>
    if img.isURL && img.url == targetURL then some (img :: rest)
    else if img.isURL && img.isPrimary then some ({ img with url := targetURL } :: rest)
    else (legacySyncLoop targetURL rest).map (fun r => img :: r)

/-- The `req.ImageURL` block of `UpdateProduct` (part_007 lines 175-201):
sets the legacy field and syncs or prepends a primary URL image. -/
def applyLegacyURL (req : UpdateProductRequest) (freshId : Nat → String)
    (now : Nat) (p : Product) : Product :=
  if req.imageURL ≠ "" then
    let p1 := { p with imageURL := req.imageURL }
    match legacySyncLoop req.imageURL p1.images with
    | some imgs => { p1 with images := imgs }
    | none =>
      { p1 with images := newURLImage (freshId (req.imageURLs.length + 1)) req.imageURL true now
          :: p1.images }
  else p

/-- The `req.ImageURLs` block of `UpdateProduct` (part_007 lines 209-233):
keeps non-URL images, then appends one image per non-empty URL with
`IsPrimary: i == 0 && len(newImages) == 0`. -/
def applyImageURLs (req : UpdateProductRequest) (freshId : Nat → String)
    (now : Nat) (p : Product) : Product :=
  if req.imageURLs.length > 0 then
    let kept := p.images.filter (fun img => !img.isURL)
    let built := req.imageURLs.enum.foldl
      (fun imgs iu =>
        if iu.2 ≠ "" then
          imgs ++ [newURLImage (freshId iu.1) iu.2 (iu.1 == 0 && imgs.length == 0) now]
        else imgs)
      kept
    { p with images := built }
  else p

/-- The first five `if` blocks of `UpdateProduct` (part_007 lines 160-174):
non-empty name/description/category/brand and positive price overwrite. -/
def applyTextAndPrice (req : UpdateProductRequest) (p0 : Product) : Product :=
  let product := if req.name ≠ "" then { p0 with name := req.name } else p0
  let product := if req.description ≠ "" then { product with description := req.description } else product
  let product := if req.price > 0 then { product with price := req.price } else product
  let product := if req.category ≠ "" then { product with category := req.category } else product
  if req.brand ≠ "" then { product with brand := req.brand } else product

/-- The stock and `IsActive` blocks of `UpdateProduct` (part_007 lines
202-207): any non-negative stock overwrites; the `IsActive` pointer
overwrites when present. -/
def applyStockActive (req : UpdateProductRequest) (p : Product) : Product :=
  let product := if req.stock ≥ 0 then { p with stock := req.stock } else p
  match req.isActive with
  | some b => { product with isActive := b }
  | none => product

/-- `ProductUseCase.UpdateProduct` (part_007 lines 149-241): merges the
non-zero request fields over the stored product (each `if` block in source
order), then persists via the repository `Update`. -/
def ProductUseCase.UpdateProduct (db : DB) (id : ObjectId)
    (req : UpdateProductRequest) (freshId : Nat → String) (now : Nat) :
    Except String (Product × DB) :=
  match getProductByID db id with
  | none => .error "product not found"
  | some product0 =>
    let product :=
      applyImageURLs req freshId now
        (applyStockActive req (applyLegacyURL req freshId now (applyTextAndPrice req product0)))
    .ok (product, updateProductRepo db product now)

/-- `ProductUseCase.UpdateProductWithImages` (part_007 lines 244-333): merges
basic fields, replaces the whole image collection by uploads followed by URL
images, falls back to the legacy single URL, and runs the ensure-primary
block. -/
def ProductUseCase.UpdateProductWithImages (db : DB) (id : ObjectId)
    (req : UpdateProductRequest) (uploadedImages : List ProductImage)
    (freshId : Nat → String) (now : Nat) : Except String (Product × DB) :=
  match getProductByID db id with
  | none => .error "product not found"
  | some product0 =>
    let product := if req.name ≠ "" then { product0 with name := req.name } else product0
    let product := if req.description ≠ "" then { product with description := req.description } else product
    let product := if req.price > 0 then { product with price := req.price } else product
    let product := if req.category ≠ "" then { product with category := req.category } else product
    let product := if req.brand ≠ "" then { product with brand := req.brand } else product
    let product := if req.stock ≥ 0 then { product with stock := req.stock } else product
    let product :=
      match req.isActive with
      | some b => { product with isActive := b }
      | none => product
    let newImages : List ProductImage := [] ++ uploadedImages
    let newImages :=
      if req.imageURLs.length > 0 then appendURLImages req.imageURLs freshId now newImages
      else newImages
    let (newImages, product) :=
      if req.imageURL ≠ "" ∧ newImages.length = 0 then
        (newImages ++ [newURLImage (freshId req.imageURLs.length) req.imageURL true now],
         { product with imageURL := req.imageURL })
      else (newImages, product)
    let product := { product with images := newImages }
    let product := { product with images := ensurePrimaryImages product.images }
    .ok (product, updateProductRepo db product now)

/-- The ensure-primary block always yields a collection with at least one
primary image whenever its result is non-empty. -/
theorem ensurePrimaryImages_any (l : List ProductImage)
    (h : ensurePrimaryImages l ≠ []) :
    (ensurePrimaryImages l).any (fun img => img.isPrimary) = true := by
  cases l with
  | nil => simp [ensurePrimaryImages] at h
  | cons a t =>
    by_cases hp : (a :: t).any (fun img => img.isPrimary) = true
    · simp [ensurePrimaryImages, hp]
    · simp [ensurePrimaryImages, hp]

/-- Counterexample for C5 as frozen: `CreateProduct` with
`image_urls = ["", "y"]` builds a single image (index 1, since the index-0
URL is empty and `IsPrimary: i == 0` only flags index 0), so the collection
is non-empty yet contains no primary image. -/
theorem claim_C5_counterexample :
    (ProductUseCase.CreateProduct
      { name := "x", description := "", price := 1, category := "c", brand := "",
        imageURL := "", imageURLs := ["", "y"], stock := 0 }
      (fun _ => "u") 0).images.length = 1 ∧
    ((ProductUseCase.CreateProduct
      { name := "x", description := "", price := 1, category := "c", brand := "",
        imageURL := "", imageURLs := ["", "y"], stock := 0 }
      (fun _ => "u") 0).images.filter (fun img => img.isPrimary)).length = 0 := by
  constructor
  · decide
  · decide

/-- Claim C5 (amended): the two WithImages paths guarantee at least one
primary image whenever the resulting collection is non-empty (via the
ensure-primary block); `CreateProduct` and `UpdateProduct` have no such
guarantee, and no path guarantees uniqueness of the primary flag. -/
theorem claim_C5_with_images_at_least_one_primary :
    (∀ req uploadedImages freshId now,
      (ProductUseCase.CreateProductWithImages req uploadedImages freshId now).images ≠ [] →
      ((ProductUseCase.CreateProductWithImages req uploadedImages freshId now).images.any
        (fun img => img.isPrimary)) = true) ∧
    (∀ db id req uploadedImages freshId now p dbA,
      ProductUseCase.UpdateProductWithImages db id req uploadedImages freshId now
          = .ok (p, dbA) →
      p.images ≠ [] → (p.images.any (fun img => img.isPrimary)) = true) := by
  constructor
  · intro req up freshId now h
    exact ensurePrimaryImages_any _ h
  · intro db id req up freshId now p dbA hok h
    rw [ProductUseCase.UpdateProductWithImages] at hok
    cases hfind : getProductByID db id with
    | none =>
      rw [hfind] at hok
      exact absurd hok (by simp)
    | some p0 =>
      rw [hfind] at hok
      injection hok with hok1
      injection hok1 with hp hdb
      subst hp
      exact ensurePrimaryImages_any _ h

/-- Witness for the amended C5: a create via the WithImages path from one
URL image, and an update via the WithImages path at the sample store, both
end with a primary image present. -/
theorem claim_C5_witness :
    ((ProductUseCase.CreateProductWithImages
      { name := "x", description := "", price := 1, category := "c", brand := "",
        imageURL := "", imageURLs := ["z"], stock := 0 } [] (fun _ => "u") 0).images.any
      (fun img => img.isPrimary)) = true ∧
    (∃ p dbA, ProductUseCase.UpdateProductWithImages sampleDB 1
        { name := "", description := "", price := 0, category := "", brand := "",
          imageURL := "", imageURLs := ["z"], stock := -1, isActive := none }
        [] (fun _ => "u") 0 = .ok (p, dbA) ∧
      p.images.any (fun img => img.isPrimary) = true) := by
  have h := claim_C5_with_images_at_least_one_primary
  constructor
  · exact h.1 _ _ _ _ (by decide)
  · obtain ⟨pd, hok, hne⟩ :
      ∃ pd, ProductUseCase.UpdateProductWithImages sampleDB 1
          { name := "", description := "", price := 0, category := "", brand := "",
            imageURL := "", imageURLs := ["z"], stock := -1, isActive := none }
          [] (fun _ => "u") 0 = .ok pd ∧ pd.1.images ≠ [] :=
      ⟨_, rfl, by decide⟩
    exact ⟨pd.1, pd.2, by rw [hok], h.2 _ _ _ _ _ _ pd.1 pd.2 (by rw [hok]) hne⟩

@[simp] theorem applyLegacyURL_name (req : UpdateProductRequest)
    (freshId : Nat → String) (now : Nat) (p : Product) :
    (applyLegacyURL req freshId now p).name = p.name := by
  rw [applyLegacyURL]
  split
  · dsimp only
    split <;> rfl
  · rfl

@[simp] theorem applyLegacyURL_description (req : UpdateProductRequest)
    (freshId : Nat → String) (now : Nat) (p : Product) :
    (applyLegacyURL req freshId now p).description = p.description := by
  rw [applyLegacyURL]
  split
  · dsimp only
    split <;> rfl
  · rfl

@[simp] theorem applyLegacyURL_price (req : UpdateProductRequest)
    (freshId : Nat → String) (now : Nat) (p : Product) :
    (applyLegacyURL req freshId now p).price = p.price := by
  rw [applyLegacyURL]
  split
  · dsimp only
    split <;> rfl
  · rfl

@[simp] theorem applyLegacyURL_category (req : UpdateProductRequest)
    (freshId : Nat → String) (now : Nat) (p : Product) :
    (applyLegacyURL req freshId now p).category = p.category := by
  rw [applyLegacyURL]
  split
  · dsimp only
    split <;> rfl
  · rfl

@[simp] theorem applyLegacyURL_brand (req : UpdateProductRequest)
    (freshId : Nat → String) (now : Nat) (p : Product) :
    (applyLegacyURL req freshId now p).brand = p.brand := by
  rw [applyLegacyURL]
  split
  · dsimp only
    split <;> rfl
  · rfl

@[simp] theorem applyLegacyURL_stock (req : UpdateProductRequest)
    (freshId : Nat → String) (now : Nat) (p : Product) :
    (applyLegacyURL req freshId now p).stock = p.stock := by
  rw [applyLegacyURL]
  split
  · dsimp only
    split <;> rfl
  · rfl

@[simp] theorem applyLegacyURL_isActive (req : UpdateProductRequest)
    (freshId : Nat → String) (now : Nat) (p : Product) :
    (applyLegacyURL req freshId now p).isActive = p.isActive := by
  rw [applyLegacyURL]
  split
  · dsimp only
    split <;> rfl
  · rfl

@[simp] theorem applyLegacyURL_id (req : UpdateProductRequest)
    (freshId : Nat → String) (now : Nat) (p : Product) :
    (applyLegacyURL req freshId now p).id = p.id := by
  rw [applyLegacyURL]
  split
  · dsimp only
    split <;> rfl
  · rfl

@[simp] theorem applyLegacyURL_createdAt (req : UpdateProductRequest)
    (freshId : Nat → String) (now : Nat) (p : Product) :
    (applyLegacyURL req freshId now p).createdAt = p.createdAt := by
  rw [applyLegacyURL]
  split
  · dsimp only
    split <;> rfl
  · rfl

/-- An empty legacy URL in the request makes that block a no-op. -/
theorem applyLegacyURL_of_empty (req : UpdateProductRequest)
    (freshId : Nat → String) (now : Nat) (p : Product) (h : req.imageURL = "") :
    applyLegacyURL req freshId now p = p := by
  rw [applyLegacyURL]
  simp [h]

@[simp] theorem applyImageURLs_name (req : UpdateProductRequest)
    (freshId : Nat → String) (now : Nat) (p : Product) :
    (applyImageURLs req freshId now p).name = p.name := by
  rw [applyImageURLs]
  split <;> rfl

@[simp] theorem applyImageURLs_description (req : UpdateProductRequest)
    (freshId : Nat → String) (now : Nat) (p : Product) :
    (applyImageURLs req freshId now p).description = p.description := by
  rw [applyImageURLs]
  split <;> rfl

@[simp] theorem applyImageURLs_price (req : UpdateProductRequest)
    (freshId : Nat → String) (now : Nat) (p : Product) :
    (applyImageURLs req freshId now p).price = p.price := by
  rw [applyImageURLs]
  split <;> rfl

@[simp] theorem applyImageURLs_category (req : UpdateProductRequest)
    (freshId : Nat → String) (now : Nat) (p : Product) :
    (applyImageURLs req freshId now p).category = p.category := by
  rw [applyImageURLs]
  split <;> rfl

@[simp] theorem applyImageURLs_brand (req : UpdateProductRequest)
    (freshId : Nat → String) (now : Nat) (p : Product) :
    (applyImageURLs req freshId now p).brand = p.brand := by
  rw [applyImageURLs]
  split <;> rfl

@[simp] theorem applyImageURLs_stock (req : UpdateProductRequest)
    (freshId : Nat → String) (now : Nat) (p : Product) :
    (applyImageURLs req freshId now p).stock = p.stock := by
  rw [applyImageURLs]
  split <;> rfl

@[simp] theorem applyImageURLs_isActive (req : UpdateProductRequest)
    (freshId : Nat → String) (now : Nat) (p : Product) :
    (applyImageURLs req freshId now p).isActive = p.isActive := by
  rw [applyImageURLs]
  split <;> rfl

@[simp] theorem applyImageURLs_id (req : UpdateProductRequest)
    (freshId : Nat → String) (now : Nat) (p : Product) :
    (applyImageURLs req freshId now p).id = p.id := by
  rw [applyImageURLs]
  split <;> rfl

@[simp] theorem applyImageURLs_createdAt (req : UpdateProductRequest)
    (freshId : Nat → String) (now : Nat) (p : Product) :
    (applyImageURLs req freshId now p).createdAt = p.createdAt := by
  rw [applyImageURLs]
  split <;> rfl

@[simp] theorem applyImageURLs_imageURL (req : UpdateProductRequest)
    (freshId : Nat → String) (now : Nat) (p : Product) :
    (applyImageURLs req freshId now p).imageURL = p.imageURL := by
  rw [applyImageURLs]
  split <;> rfl

/-- An empty multi-URL list in the request makes that block a no-op. -/
theorem applyImageURLs_of_nil (req : UpdateProductRequest)
    (freshId : Nat → String) (now : Nat) (p : Product) (h : req.imageURLs = []) :
    applyImageURLs req freshId now p = p := by
  rw [applyImageURLs]
  simp [h]

@[simp] theorem applyTextAndPrice_name (req : UpdateProductRequest) (p0 : Product) :
    (applyTextAndPrice req p0).name = (if req.name ≠ "" then req.name else p0.name) := by
  rw [applyTextAndPrice]
  simp only [apply_ite Product.name, ite_self]

@[simp] theorem applyTextAndPrice_description (req : UpdateProductRequest) (p0 : Product) :
    (applyTextAndPrice req p0).description
      = (if req.description ≠ "" then req.description else p0.description) := by
  rw [applyTextAndPrice]
  simp only [apply_ite Product.description, ite_self]

@[simp] theorem applyTextAndPrice_price (req : UpdateProductRequest) (p0 : Product) :
    (applyTextAndPrice req p0).price = (if req.price > 0 then req.price else p0.price) := by
  rw [applyTextAndPrice]
  simp only [apply_ite Product.price, ite_self]

@[simp] theorem applyTextAndPrice_category (req : UpdateProductRequest) (p0 : Product) :
    (applyTextAndPrice req p0).category
      = (if req.category ≠ "" then req.category else p0.category) := by
  rw [applyTextAndPrice]
  simp only [apply_ite Product.category, ite_self]

@[simp] theorem applyTextAndPrice_brand (req : UpdateProductRequest) (p0 : Product) :
    (applyTextAndPrice req p0).brand = (if req.brand ≠ "" then req.brand else p0.brand) := by
  rw [applyTextAndPrice]
  simp only [apply_ite Product.brand, ite_self]

@[simp] theorem applyTextAndPrice_stock (req : UpdateProductRequest) (p0 : Product) :
    (applyTextAndPrice req p0).stock = p0.stock := by
  rw [applyTextAndPrice]
  simp only [apply_ite Product.stock, ite_self]

@[simp] theorem applyTextAndPrice_isActive (req : UpdateProductRequest) (p0 : Product) :
    (applyTextAndPrice req p0).isActive = p0.isActive := by
  rw [applyTextAndPrice]
  simp only [apply_ite Product.isActive, ite_self]

@[simp] theorem applyTextAndPrice_id (req : UpdateProductRequest) (p0 : Product) :
    (applyTextAndPrice req p0).id = p0.id := by
  rw [applyTextAndPrice]
  simp only [apply_ite Product.id, ite_self]

@[simp] theorem applyTextAndPrice_createdAt (req : UpdateProductRequest) (p0 : Product) :
    (applyTextAndPrice req p0).createdAt = p0.createdAt := by
  rw [applyTextAndPrice]
  simp only [apply_ite Product.createdAt, ite_self]

@[simp] theorem applyTextAndPrice_imageURL (req : UpdateProductRequest) (p0 : Product) :
    (applyTextAndPrice req p0).imageURL = p0.imageURL := by
  rw [applyTextAndPrice]
  simp only [apply_ite Product.imageURL, ite_self]

@[simp] theorem applyTextAndPrice_images (req : UpdateProductRequest) (p0 : Product) :
    (applyTextAndPrice req p0).images = p0.images := by
  rw [applyTextAndPrice]
  simp only [apply_ite Product.images, ite_self]

@[simp] theorem applyStockActive_stock (req : UpdateProductRequest) (p : Product) :
    (applyStockActive req p).stock = (if req.stock ≥ 0 then req.stock else p.stock) := by
  rw [applyStockActive]
  cases req.isActive <;> simp only [apply_ite Product.stock, ite_self]

@[simp] theorem applyStockActive_isActive (req : UpdateProductRequest) (p : Product) :
    (applyStockActive req p).isActive = req.isActive.getD p.isActive := by
  rw [applyStockActive]
  cases req.isActive <;> simp [apply_ite Product.isActive, ite_self]

@[simp] theorem applyStockActive_name (req : UpdateProductRequest) (p : Product) :
    (applyStockActive req p).name = p.name := by
  rw [applyStockActive]
  cases req.isActive <;> simp [apply_ite Product.name, ite_self]

@[simp] theorem applyStockActive_description (req : UpdateProductRequest) (p : Product) :
    (applyStockActive req p).description = p.description := by
  rw [applyStockActive]
  cases req.isActive <;> simp [apply_ite Product.description, ite_self]

@[simp] theorem applyStockActive_price (req : UpdateProductRequest) (p : Product) :
    (applyStockActive req p).price = p.price := by
  rw [applyStockActive]
  cases req.isActive <;> simp [apply_ite Product.price, ite_self]

@[simp] theorem applyStockActive_category (req : UpdateProductRequest) (p : Product) :
    (applyStockActive req p).category = p.category := by
  rw [applyStockActive]
  cases req.isActive <;> simp [apply_ite Product.category, ite_self]

@[simp] theorem applyStockActive_brand (req : UpdateProductRequest) (p : Product) :
    (applyStockActive req p).brand = p.brand := by
  rw [applyStockActive]
  cases req.isActive <;> simp [apply_ite Product.brand, ite_self]

@[simp] theorem applyStockActive_id (req : UpdateProductRequest) (p : Product) :
    (applyStockActive req p).id = p.id := by
  rw [applyStockActive]
  cases req.isActive <;> simp [apply_ite Product.id, ite_self]

@[simp] theorem applyStockActive_createdAt (req : UpdateProductRequest) (p : Product) :
    (applyStockActive req p).createdAt = p.createdAt := by
  rw [applyStockActive]
  cases req.isActive <;> simp [apply_ite Product.createdAt, ite_self]

@[simp] theorem applyStockActive_imageURL (req : UpdateProductRequest) (p : Product) :
    (applyStockActive req p).imageURL = p.imageURL := by
  rw [applyStockActive]
  cases req.isActive <;> simp [apply_ite Product.imageURL, ite_self]

@[simp] theorem applyStockActive_images (req : UpdateProductRequest) (p : Product) :
    (applyStockActive req p).images = p.images := by
  rw [applyStockActive]
  cases req.isActive <;> simp [apply_ite Product.images, ite_self]

/-- Counterexample for C6 as frozen: an all-zero partial update against the
sample product (stock 5) sets stock to 0, because the code guards the stock
merge with `req.Stock >= 0`, which a zero stock satisfies. -/
theorem claim_C6_counterexample :
    ((ProductUseCase.UpdateProduct sampleDB 1
        { name := "", description := "", price := 0, category := "", brand := "",
          imageURL := "", imageURLs := [], stock := 0, isActive := none }
        (fun _ => "u") 0).toOption.map (fun pd => pd.1.stock)) = some 0 ∧
    sampleProduct.stock = 5 := by
  constructor
  · decide
  · decide

/-- Claim C6 (amended): in `UpdateProduct` an empty name, description,
category or brand and a non-positive price leave the stored field unchanged,
`IsActive` follows the explicit pointer, identity and creation time are
untouched, an empty legacy URL leaves `image_url` untouched and together with
an empty URL list leaves the image collection untouched; the stock field,
however, is overwritten by every non-negative request stock — zero included —
and only a negative request stock means "leave unchanged". -/
theorem claim_C6_partial_update_semantics
    (db : DB) (id : ObjectId) (req : UpdateProductRequest)
    (freshId : Nat → String) (now : Nat) (product0 : Product)
    (hfind : getProductByID db id = some product0) :
    ∃ p dbA, ProductUseCase.UpdateProduct db id req freshId now = .ok (p, dbA) ∧
      p.name = (if req.name ≠ "" then req.name else product0.name) ∧
      p.description = (if req.description ≠ "" then req.description else product0.description) ∧
      p.price = (if req.price > 0 then req.price else product0.price) ∧
      p.category = (if req.category ≠ "" then req.category else product0.category) ∧
      p.brand = (if req.brand ≠ "" then req.brand else product0.brand) ∧
      p.stock = (if req.stock ≥ 0 then req.stock else product0.stock) ∧
      p.isActive = req.isActive.getD product0.isActive ∧
      p.id = product0.id ∧ p.createdAt = product0.createdAt ∧
      (req.imageURL = "" → p.imageURL = product0.imageURL) ∧
      (req.imageURL = "" → req.imageURLs = [] → p.images = product0.images) := by
  rw [ProductUseCase.UpdateProduct, hfind]
  refine ⟨_, _, rfl, ?_, ?_, ?_, ?_, ?_, ?_, ?_, ?_, ?_, ?_, ?_⟩
  · simp
  · simp
  · simp
  · simp
  · simp
  · simp
  · simp
  · simp
  · simp
  · intro hurl
    simp [applyLegacyURL_of_empty _ _ _ _ hurl]
  · intro hurl hurls
    simp [applyLegacyURL_of_empty _ _ _ _ hurl, applyImageURLs_of_nil _ _ _ _ hurls]

/-- Witness for the amended C6 at the sample product (name "tractor",
price 10, stock 5): a request renaming to "seeder" with zero price and zero
stock keeps the price but zeroes the stock. -/
theorem claim_C6_witness :
    ∃ p dbA, ProductUseCase.UpdateProduct sampleDB 1
        { name := "seeder", description := "", price := 0, category := "", brand := "",
          imageURL := "", imageURLs := [], stock := 0, isActive := none }
        (fun _ => "u") 0 = .ok (p, dbA) ∧
      p.name = "seeder" ∧ p.price = 10 ∧ p.stock = 0 ∧
      p.imageURL = sampleProduct.imageURL ∧ p.images = sampleProduct.images := by
  obtain ⟨p, dbA, hok, hname, hdesc, hprice, hcat, hbrand, hstock, hact, hid, hcre,
      hurl, himgs⟩ :=
    claim_C6_partial_update_semantics sampleDB 1
      { name := "seeder", description := "", price := 0, category := "", brand := "",
        imageURL := "", imageURLs := [], stock := 0, isActive := none }
      (fun _ => "u") 0 sampleProduct rfl
  refine ⟨p, dbA, hok, ?_, ?_, ?_, ?_, ?_⟩
  · simpa using hname
  · rw [hprice]
    norm_num [sampleProduct]
  · simpa using hstock
  · exact hurl rfl
  · exact himgs rfl rfl

/-- `domain.ProductFilter` (part_010). -/
structure ProductFilter where
  category : String
  brand : String
  minPrice : ℚ
  maxPrice : ℚ
  isActive : Option Bool
  search : String
  page : Int
  limit : Int
deriving DecidableEq

/-- The `bson.M` document either repository method builds: an optional
condition per field; `price` carries the optional `$gte`/`$lte` bounds and
`nameRegex` the case-insensitive `$regex` on `name`. -/
structure MongoProductQuery where
  category : Option String
  brand : Option String
  price : Option (Option ℚ × Option ℚ)
  isActive : Option Bool
  nameRegex : Option String
deriving DecidableEq

/-- The filter document built by `productRepository.List`
(product_repository.go lines 71-96). -/
def listQueryFilter (f : ProductFilter) : MongoProductQuery :=
  { category := if f.category ≠ "" then some f.category else none,
    brand := if f.brand ≠ "" then some f.brand else none,
    price :=
      if f.minPrice > 0 ∨ f.maxPrice > 0 then
        some (if f.minPrice > 0 then some f.minPrice else none,
              if f.maxPrice > 0 then some f.maxPrice else none)
      else none,
    isActive := f.isActive,
    nameRegex := if f.search ≠ "" then some f.search else none }

/-- The filter document built by `productRepository.Count`
(product_repository.go lines 131-156), transcribed separately so its
coincidence with the List filter is a theorem, not a definition. -/
def countQueryFilter (f : ProductFilter) : MongoProductQuery :=
  { category := if f.category ≠ "" then some f.category else none,
    brand := if f.brand ≠ "" then some f.brand else none,
    price :=
      if f.minPrice > 0 ∨ f.maxPrice > 0 then
        some (if f.minPrice > 0 then some f.minPrice else none,
              if f.maxPrice > 0 then some f.maxPrice else none)
      else none,
    isActive := f.isActive,
    nameRegex := if f.search ≠ "" then some f.search else none }

/-- Bool-valued containment of one character list in another. -/
def charsInfix (pat : List Char) : List Char → Bool
  | [] => pat.isEmpty
  | c :: t => pat.isPrefixOf (c :: t) || charsInfix pat t

/-- Semantics of `$regex` with `$options: i` for plain (metacharacter-free)
search strings: case-insensitive substring match.  List and Count install
the same condition, so only its identity matters for the claims. -/
def matchesRegexCI (pat name : String) : Bool :=
  charsInfix (pat.data.map Char.toLower) (name.data.map Char.toLower)

/-- The document store's evaluation of a built query against a product. -/
def matchesQuery (q : MongoProductQuery) (p : Product) : Bool :=
  (match q.category with
   | none => true
   | some c => p.category == c) &&
  (match q.brand with
   | none => true
   | some b => p.brand == b) &&
  (match q.price with
   | none => true
   | some gl =>
     (match gl.1 with
      | none => true
      | some x => decide (x ≤ p.price)) &&
     (match gl.2 with
      | none => true
      | some y => decide (p.price ≤ y))) &&
  (match q.isActive with
   | none => true
   | some b => p.isActive == b) &&
  (match q.nameRegex with
   | none => true
   | some s => matchesRegexCI s p.name)

/-- Insertion step of a stable descending sort by a numeric key. -/
def insertByKeyDesc {α : Type} (key : α → Nat) (x : α) : List α → List α
  | [] => [x]
  | y :: t => if key y ≥ key x then y :: insertByKeyDesc key x t else x :: y :: t

/-- Stable descending sort by a numeric key, modelling the cursor's
`SetSort(..., -1)`. -/
def sortByKeyDesc {α : Type} (key : α → Nat) : List α → List α
  | [] => []
  | x :: t => insertByKeyDesc key x (sortByKeyDesc key t)

theorem length_insertByKeyDesc {α : Type} (key : α → Nat) (x : α) (l : List α) :
    (insertByKeyDesc key x l).length = l.length + 1 := by
  induction l with
  | nil => rfl
  | cons y t ih =>
    rw [insertByKeyDesc]
    split
    · simp [ih]
    · simp

theorem length_sortByKeyDesc {α : Type} (key : α → Nat) (l : List α) :
    (sortByKeyDesc key l).length = l.length := by
  induction l with
  | nil => rfl
  | cons x t ih =>
    rw [sortByKeyDesc, length_insertByKeyDesc, ih]
    rfl

/-- `productRepository.List` (product_repository.go lines 70-127): filter,
sort by `created_at` descending, and skip/limit only when both `page` and
`limit` are positive. -/
def productRepositoryList (db : DB) (f : ProductFilter) : List Product :=
  let ms := db.products.filter (fun p => matchesQuery (listQueryFilter f) p)
  let sorted := sortByKeyDesc Product.createdAt ms
  if f.page > 0 ∧ f.limit > 0 then
    (sorted.drop ((f.page - 1) * f.limit).toNat).take f.limit.toNat
  else sorted

/-- `productRepository.Count` (product_repository.go lines 130-159):
`CountDocuments` on the filter it builds. -/
def productRepositoryCount (db : DB) (f : ProductFilter) : Nat :=
  (db.products.filter (fun p => matchesQuery (countQueryFilter f) p)).length

/-- Claim C7: Count builds a query filter identical to List's, and with
pagination disabled (page or limit not positive) Count equals the length of
the List result. -/
theorem claim_C7_count_agrees_with_list (db : DB) (f : ProductFilter) :
    countQueryFilter f = listQueryFilter f ∧
    (¬ (f.page > 0 ∧ f.limit > 0) →
      productRepositoryCount db f = (productRepositoryList db f).length) := by
  constructor
  · rfl
  · intro h
    rw [productRepositoryCount, productRepositoryList]
    simp only [if_neg h]
    rw [length_sortByKeyDesc]
    rfl

/-- Witness for C7: a category-and-search filter with page 0 at a two-product
store; Count and the unpaginated List length agree (and equal 1). -/
theorem claim_C7_witness :
    countQueryFilter
        { category := "equipment", brand := "", minPrice := 0, maxPrice := 0,
          isActive := none, search := "tra", page := 0, limit := 10 }
      = listQueryFilter
        { category := "equipment", brand := "", minPrice := 0, maxPrice := 0,
          isActive := none, search := "tra", page := 0, limit := 10 } ∧
    productRepositoryCount sampleDB
        { category := "equipment", brand := "", minPrice := 0, maxPrice := 0,
          isActive := none, search := "tra", page := 0, limit := 10 }
      = (productRepositoryList sampleDB
        { category := "equipment", brand := "", minPrice := 0, maxPrice := 0,
          isActive := none, search := "tra", page := 0, limit := 10 }).length ∧
    productRepositoryCount sampleDB
        { category := "equipment", brand := "", minPrice := 0, maxPrice := 0,
          isActive := none, search := "tra", page := 0, limit := 10 } = 1 := by
  have h := claim_C7_count_agrees_with_list sampleDB
    { category := "equipment", brand := "", minPrice := 0, maxPrice := 0,
      isActive := none, search := "tra", page := 0, limit := 10 }
  refine ⟨h.1, h.2 (by decide), ?_⟩
  decide

/-- `saleRepository.GetSalesByDateRange` (part_011 lines 242-269): sales with
`fromDate <= date_sold <= toDate`, sorted by `date_sold` descending. -/
def getSalesByDateRange (db : DB) (fromDate toDate : Nat) : List Sale :=
  sortByKeyDesc Sale.dateSold
    (db.sales.filter (fun s => decide (fromDate ≤ s.dateSold) && decide (s.dateSold ≤ toDate)))

/-- Hexadecimal rendering of an ObjectID (`primitive.ObjectID.Hex`). -/
def hexOf (n : Nat) : String := String.mk (Nat.toDigits 16 n)

/-- Round an exact rational to an integer, ties to even, as Go's `fmt`
does when shortening. -/
def roundHalfEven (x : ℚ) : Int :=
  let f := ⌊x⌋
  let frac := x - ↑f
  if frac < 1/2 then f
  else if 1/2 < frac then f + 1
  else if f % 2 = 0 then f else f + 1

/-- Go's `%.2f` on the exact rational value: fixed-point with two decimal
digits. -/
def fmt2 (q : ℚ) : String :=
  let cents := roundHalfEven (q * 100)
  let sign := if cents < 0 then "-" else ""
  let a := cents.natAbs
  sign ++ toString (a / 100) ++ "." ++ (if a % 100 < 10 then "0" else "") ++ toString (a % 100)

/-- `time.Format("2006-01-02 15:04:05")` on the abstract instant; calendar
rendering is abstracted to the instant's decimal representation. -/
def fmtDateTime (t : Nat) : String := toString t

/-- The per-sale `Sprintf` row of `ExportSales` (sales_usecase.go lines
113-121). -/
def csvRow (sale : Sale) (productName : String) : String :=
  hexOf sale.id ++ "," ++ hexOf sale.productID ++ "," ++ productName ++ ","
    ++ toString sale.quantity ++ "," ++ fmt2 sale.price ++ "," ++ fmt2 sale.total ++ ","
    ++ fmtDateTime sale.dateSold ++ "\n"

/-- The CSV header line written first (sales_usecase.go line 102). -/
def exportHeader : String := "ID,Product ID,Product Name,Quantity,Price,Total,Date Sold\n"

/-- The per-row product-name resolution of `ExportSales` (lines 106-111):
`"Unknown"` unless the referenced product still exists. -/
def resolveProductName (db : DB) (pid : ObjectId) : String :=
  match getProductByID db pid with
  | none => "Unknown"
  | some product => product.name

/-- `SalesUseCase.ExportSales` (sales_usecase.go lines 87-125): rejects any
format but `"csv"`, then builds the CSV into a string accumulator exactly as
the Go `strings.Builder` loop does. -/
def SalesUseCase.ExportSales (db : DB) (fromDate toDate : Nat) (format : String) :
    Except String String :=
  if format ≠ "csv" then .error "unsupported format"
  else
    let sales := getSalesByDateRange db fromDate toDate
    let body := sales.foldl
      (fun acc sale => acc ++ csvRow sale (resolveProductName db sale.productID))
      exportHeader
    .ok body

/-- Concatenation of the rendered rows of a list. -/
def concatRows {α : Type} (g : α → String) : List α → String
  | [] => ""
  | x :: t => g x ++ concatRows g t

theorem foldl_append_eq_concatRows {α : Type} (g : α → String) (l : List α) :
    ∀ init : String, l.foldl (fun acc x => acc ++ g x) init = init ++ concatRows g l := by
  induction l with
  | nil =>
    intro init
    simp [concatRows]
  | cons x t ih =>
    intro init
    rw [List.foldl, ih, concatRows]
    simp [String.append_assoc]

/-- Claim C8: `ExportSales` fails with the unsupported-format error for every
format other than `"csv"`; for `"csv"` the output is the header followed by
exactly one rendered row per sale in the range, with the product name
resolved per row (missing products render as "Unknown", which is folded into
`resolveProductName`); with zero matching sales the output is the header
alone. -/
theorem claim_C8_export_sales (db : DB) (fromDate toDate : Nat) (format : String) :
    (format ≠ "csv" →
      SalesUseCase.ExportSales db fromDate toDate format = .error "unsupported format") ∧
    (SalesUseCase.ExportSales db fromDate toDate "csv"
      = .ok (exportHeader ++ concatRows
          (fun sale => csvRow sale (resolveProductName db sale.productID))
          (getSalesByDateRange db fromDate toDate))) ∧
    (getSalesByDateRange db fromDate toDate = [] →
      SalesUseCase.ExportSales db fromDate toDate "csv" = .ok exportHeader) := by
  refine ⟨?_, ?_, ?_⟩
  · intro h
    rw [SalesUseCase.ExportSales, if_pos h]
  · rw [SalesUseCase.ExportSales, if_neg (by simp)]
    show Except.ok ((getSalesByDateRange db fromDate toDate).foldl
        (fun acc sale => acc ++ csvRow sale (resolveProductName db sale.productID))
        exportHeader) = _
    rw [foldl_append_eq_concatRows]
  · intro h
    rw [SalesUseCase.ExportSales, if_neg (by simp)]
    show Except.ok ((getSalesByDateRange db fromDate toDate).foldl
        (fun acc sale => acc ++ csvRow sale (resolveProductName db sale.productID))
        exportHeader) = _
    rw [h]
    rfl

/-- Witness for C8: at the sample store (no sales) the csv export over any
range is exactly the header, and an "xml" export is rejected. -/
theorem claim_C8_witness :
    SalesUseCase.ExportSales sampleDB 0 100 "xml" = .error "unsupported format" ∧
    SalesUseCase.ExportSales sampleDB 0 100 "csv" = .ok exportHeader := by
  constructor
  · exact (claim_C8_export_sales sampleDB 0 100 "xml").1 (by decide)
  · exact (claim_C8_export_sales sampleDB 0 100 "csv").2.2 rfl

/-- The observable outcome of `DeleteFile`: success without touching disk,
an error without touching disk, or a call to `os.Remove` on a path. -/
inductive FileAction where
  | noop
  | rejected (msg : String)
  | removed (path : String)
deriving DecidableEq

/-- `UploadConfig.DeleteFile` (internal/utils/file_upload.go lines 133-144):
empty path returns nil; a path not textually starting with the upload
directory (`strings.HasPrefix`, character-wise) is rejected; any other path
is handed to `os.Remove`. -/
def UploadConfig.DeleteFile (uploadDir filePath : String) : FileAction :=
  if filePath = "" then .noop
  else if !(uploadDir.data.isPrefixOf filePath.data) then
    .rejected "file path is outside upload directory"
  else .removed filePath

/-- Split a character list at `/` into path components. -/
def splitSlash : List Char → List String
  | [] => [""]
  | c :: t =>
    let rest := splitSlash t
    if c = '/' then "" :: rest
    else
      match rest with
      | [] => [String.mk [c]]
      | s :: ss => String.mk (c :: s.data) :: ss

/-- Lexical resolution of a slash-separated relative path: empty and `.`
components vanish and `..` cancels the preceding component, as
`filepath.Clean` would.  This expresses the spec's notion of the location a
path refers to; the code under test never computes it. -/
def resolvePath (path : String) : List String :=
  (splitSlash path.data).foldl
    (fun acc c =>
      if c = "" ∨ c = "." then acc
      else if c = ".." then acc.dropLast
      else acc ++ [c]) []

/-- A path lies within a directory when the directory's resolved components
lead the path's resolved components. -/
def isWithinDir (root path : String) : Bool :=
  (resolvePath root).isPrefixOf (resolvePath path)

/-- Claim C9 (code bug): the traversal path
`"uploads/products/../../secret"` textually starts with the upload root
`"uploads/products"`, so `DeleteFile` calls `os.Remove` on it although it
resolves to `secret`, outside the root — the `HasPrefix` check does not
implement the claimed refusal to delete outside the upload directory.  The
empty-path and non-prefixed cases do behave as claimed. -/
theorem claim_C9_delete_escapes_root :
    UploadConfig.DeleteFile "uploads/products" "uploads/products/../../secret"
        = .removed "uploads/products/../../secret" ∧
    isWithinDir "uploads/products" "uploads/products/../../secret" = false ∧
    UploadConfig.DeleteFile "uploads/products" "" = .noop ∧
    UploadConfig.DeleteFile "uploads/products" "elsewhere/file.png"
        = .rejected "file path is outside upload directory" := by
  refine ⟨?_, ?_, ?_, ?_⟩
  · decide
  · decide
  · decide
  · decide

/-- `domain.User` (part_009). -/
structure User where
  id : ObjectId
  email : String
  password : String
  name : String
  role : String
  isActive : Bool
  createdAt : Nat
  updatedAt : Nat
deriving DecidableEq

/-- `domain.CreateUserRequest` (part_009): the binding tags require an email
shape and a six-character password; `role` is unconstrained. -/
structure CreateUserRequest where
  email : String
  password : String
  name : String
  role : String
deriving DecidableEq

/-- `userRepository.GetByEmail`: `FindOne` on `email`, `none` when absent. -/
def getUserByEmail (users : List User) (email : String) : Option User :=
  users.find? (fun u => u.email == email)

/-- `AuthUseCase.Register` (sales_usecase.go part lines 154-191): rejects an
existing email, hashes the password (bcrypt is modelled by an injected total
hash function), defaults an empty role to `"user"`, and stores the user
active.  No authorization check guards the role field. -/
def AuthUseCase.Register (users : List User) (req : CreateUserRequest)
    (hash : String → String) : Except String User :=
  match getUserByEmail users req.email with
  | some _ => .error "user already exists"
  | none =>
    let role := req.role
    let role := if role = "" then "user" else role
    .ok { id := 0, email := req.email, password := hash req.password,
          name := req.name, role := role, isActive := true,
          createdAt := 0, updatedAt := 0 }

/-- Claim C10: Register passes any non-empty caller-supplied role string
through verbatim to the stored user; only an empty role defaults to
`"user"`; no restriction or authorization check exists on the registration
path, so a request carrying role `"admin"` creates an admin user. -/
theorem claim_C10_register_role_passthrough
    (users : List User) (req : CreateUserRequest) (hash : String → String)
    (hfree : getUserByEmail users req.email = none) :
    ∃ u, AuthUseCase.Register users req hash = .ok u ∧
      u.role = (if req.role = "" then "user" else req.role) ∧
      (req.role ≠ "" → u.role = req.role) ∧
      u.email = req.email ∧ u.isActive = true := by
  rw [AuthUseCase.Register, hfree]
  refine ⟨_, rfl, rfl, ?_, rfl, rfl⟩
  intro h
  simp [if_neg h]

/-- Witness for C10: registering with role `"admin"` against an empty user
collection stores role `"admin"`. -/
theorem claim_C10_witness :
    ∃ u, AuthUseCase.Register [] ⟨"a@b.c", "secret1", "Eve", "admin"⟩
        (fun s => String.append "hashed-" s) = .ok u ∧ u.role = "admin" := by
  obtain ⟨u, hok, hrole, hverbatim, hemail, hactive⟩ :=
    claim_C10_register_role_passthrough [] ⟨"a@b.c", "secret1", "Eve", "admin"⟩
      (fun s => String.append "hashed-" s) rfl
  exact ⟨u, hok, hverbatim (by decide)⟩

end AgriStore
